import Mathlib

/-!
# Laxo Exchange — wallet ledger and trade-settlement engine

Shallow embedding of the ledger endpoints of `src/main.py` and the record
schemas of `src/schemas.py`.

Modelling conventions:
* Monetary fields are `ℚ` (the spec mandates decimal-precision numerics; every
  arithmetic operation the handlers perform — `+`, `-`, `*`, `<` — is exact on
  the inputs the claims exercise).
* The MongoDB collections become lists; `find_one` is `List.find?` and
  `update_one` updates the first matching element, which is exactly the
  document `find_one` returned.
* Authentication (`auth_required`) and the admin flag check are transport glue
  outside the ledger contract and are abstracted away: handlers receive the
  authenticated user id directly, and `approve_withdrawal` is modelled for an
  admin caller.
* Document ids (`ObjectId`) become naturals drawn from a single fresh-id
  counter `nextId`.
* A Python exception that escapes a handler after some database writes have
  been applied (FastAPI answers 500, MongoDB has no transaction here) is
  modelled as the error `internalError` returned **together with the mutated
  state**: every operation returns `ExState × Except ApiError α`.
* Pydantic `Literal` validation runs when a record object is constructed;
  where it can fire it is modelled at exactly that program point
  (`Wallet.asset` in `register`, `Deposit.asset` in `create_deposit`,
  `Order.amount`'s `gt=0` bound in the order construction of `market_order`).
* `datetime` instants become integer seconds; Python's `timedelta.seconds`
  attribute (the seconds *component*, not the total) is `(now - ts) % 86400`
  for `now ≥ ts`, which is the situation the cache can be in.
-/

namespace Laxo

/-- Error taxonomy of the handlers: each constructor is one distinct HTTP
failure the code can produce (`insufficientFunds`, `notFound`,
`unsupportedMarket`, `invalidSide` are explicit `HTTPException`s;
`internalError` is an uncaught Python exception, i.e. HTTP 500). -/
inductive ApiError where
  | insufficientFunds
  | notFound
  | unsupportedMarket
  | invalidSide
  | internalError
  deriving DecidableEq

/-- A wallet row (`schemas.Wallet`): per (user, asset) balance/available pair. -/
structure Wallet where
  user_id : String
  asset : String
  balance : ℚ
  available : ℚ
  deriving DecidableEq

/-- A deposit record (`schemas.Deposit`; the constant `method="paypal"` field
is omitted). -/
structure DepositRec where
  user_id : String
  asset : String
  amount : ℚ
  destination : String
  status : String
  deriving DecidableEq

/-- A withdrawal record (`schemas.Withdrawal`). -/
structure WithdrawalRec where
  user_id : String
  asset : String
  amount : ℚ
  destination : String
  status : String
  deriving DecidableEq

/-- An order record (`schemas.Order`; the constant `quote_asset="USDT"` field
is omitted). -/
structure OrderRec where
  user_id : String
  side : String
  base_asset : String
  amount : ℚ
  executed_price_usd : ℚ
  executed_value_usdt : ℚ
  deriving DecidableEq

/-- The ledger database: the `wallet`, `deposit`, `withdrawal` and `order`
collections, plus the fresh-id counter. -/
structure ExState where
  wallets : List Wallet
  deposits : List (Nat × DepositRec)
  withdrawals : List (Nat × WithdrawalRec)
  orders : List (Nat × OrderRec)
  nextId : Nat
  deriving DecidableEq

/-- Replace the first element satisfying `p` by its image under `f`
(MongoDB `update_one` on the document `find_one` returned). -/
def updateFirst (p : α → Bool) (f : α → α) : List α → List α
  | [] => []
  | x :: xs => if p x then f x :: xs else x :: updateFirst p f xs

/-- The `find_one` filter `{"user_id": uid, "asset": asset}`. -/
def walletKey (uid asset : String) (w : Wallet) : Bool :=
  w.user_id == uid && w.asset == asset

/-- `db["wallet"].find_one({"user_id": uid, "asset": asset})`. -/
def findWallet (s : ExState) (uid asset : String) : Option Wallet :=
  s.wallets.find? (walletKey uid asset)

/-- `db["wallet"].update_one({"_id": w["_id"]}, ...)` where `w` is the row
`find_one` returned for `(uid, asset)`. -/
def modWallet (uid asset : String) (f : Wallet → Wallet) (ws : List Wallet) : List Wallet :=
  updateFirst (walletKey uid asset) f ws

/-- `db["withdrawal"].find_one({"_id": oid})`. -/
def findWithdrawal (s : ExState) (wid : Nat) : Option WithdrawalRec :=
  (s.withdrawals.find? (fun p => p.1 == wid)).map Prod.snd

/-- `db["withdrawal"].update_one({"_id": oid}, {"$set": {"status": st}})`. -/
def setWithdrawalStatus (wid : Nat) (st : String) (l : List (Nat × WithdrawalRec)) :
    List (Nat × WithdrawalRec) :=
  updateFirst (fun p => p.1 == wid) (fun p => (p.1, {p.2 with status := st})) l

/-- `main.PAYPAL_EMAIL`, the deposit destination constant. -/
def PAYPAL_EMAIL : String := "elvisspear046@gmail.com"

/-- The pydantic `Literal["BTC", "ETH", "USDT"]` bound on `Wallet.asset`. -/
def walletAssetValid (a : String) : Bool :=
  a == "BTC" || a == "ETH" || a == "USDT"

/-- The pydantic `Literal["BTC", "ETH", "USDT", "USD"]` bound on
`Deposit.asset` (and on `Withdrawal.asset`). -/
def depositAssetValid (a : String) : Bool :=
  a == "BTC" || a == "ETH" || a == "USDT" || a == "USD"

/-- The wallet-creation loop of `POST /auth/register` (`main.register`,
lines 112–117): for each of BTC, ETH, USDT, USD it constructs a
`schemas.Wallet` with zero balances and inserts it; the `Literal` on
`Wallet.asset` rejects `"USD"` and the surrounding `try/except` swallows the
validation error, so no USD wallet row is ever created. -/
def registerWallets (uid : String) (s : ExState) : ExState :=
  ["BTC", "ETH", "USDT", "USD"].foldl
    (fun st a =>
      if walletAssetValid a then
        {st with wallets := st.wallets ++ [⟨uid, a, 0, 0⟩]}
      else st) s

/-- `POST /deposits/create` (`main.create_deposit`, lines 192–206): constructs
the `Deposit` record with status `"created"` (pydantic validates the asset
literal here; the amount is NOT validated), inserts it, immediately sets its
status to `"approved"`, and then credits the wallet — incrementing both
`balance` and `available` by `amount` — when a row for `(user, asset)`
exists, skipping the credit silently when none does.  Returns the new
deposit id. -/
def create_deposit (uid asset : String) (amount : ℚ) (s : ExState) :
    ExState × Except ApiError Nat :=
  if !depositAssetValid asset then (s, .error .internalError)
  else
    let depId := s.nextId
    let dep : DepositRec := ⟨uid, asset, amount, PAYPAL_EMAIL, "created"⟩
    let s1 : ExState := {s with deposits := (depId, dep) :: s.deposits, nextId := s.nextId + 1}
    let deps2 := updateFirst (fun p => p.1 == depId)
      (fun p => (p.1, {p.2 with status := "approved"})) s1.deposits
    let s2 : ExState := {s1 with deposits := deps2}
    let s3 : ExState :=
      match findWallet s2 uid asset with
      | some _ =>
        let ws := modWallet uid asset
          (fun w => {w with balance := w.balance + amount, available := w.available + amount})
          s2.wallets
        {s2 with wallets := ws}
      | none => s2
    (s3, .ok depId)

/-- `POST /withdrawals/create` (`main.create_withdrawal`, lines 218–228):
fails with `InsufficientFunds` when no wallet row exists or
`available < amount`; otherwise decrements `available` by `amount` (the funds
lock), constructs the `Withdrawal` record (pydantic validates the asset
literal at this point, after the wallet mutation) with default status
`"created"` and inserts it, returning the new id. -/
def create_withdrawal (uid asset : String) (amount : ℚ) (dest : String) (s : ExState) :
    ExState × Except ApiError Nat :=
  match findWallet s uid asset with
  | none => (s, .error .insufficientFunds)
  | some w =>
    if w.available < amount then (s, .error .insufficientFunds)
    else
      let ws := modWallet uid asset
        (fun w2 => {w2 with available := w2.available - amount}) s.wallets
      let s1 : ExState := {s with wallets := ws}
      if !depositAssetValid asset then (s1, .error .internalError)
      else
        let wd : WithdrawalRec := ⟨uid, asset, amount, dest, "created"⟩
        ({s1 with withdrawals := (s1.nextId, wd) :: s1.withdrawals, nextId := s1.nextId + 1},
          .ok s1.nextId)

/-- `POST /admin/withdrawals/approve` (`main.approve_withdrawal`,
lines 238–267), for an authenticated admin caller: looks the withdrawal up
(`NotFound` when absent) and then — with NO check of its current status —
either debits `balance` by the recorded amount and marks the record
`"approved"` (failing with `InsufficientFunds` when the wallet is missing or
`balance < amount`), or credits `available` back by the recorded amount (when
the wallet exists) and marks the record `"rejected"`. -/
def approve_withdrawal (wid : Nat) (approve : Bool) (s : ExState) :
    ExState × Except ApiError Unit :=
  match findWithdrawal s wid with
  | none => (s, .error .notFound)
  | some wd =>
    if approve then
      match findWallet s wd.user_id wd.asset with
      | none => (s, .error .insufficientFunds)
      | some w =>
        if w.balance < wd.amount then (s, .error .insufficientFunds)
        else
          let ws := modWallet wd.user_id wd.asset
            (fun w2 => {w2 with balance := w2.balance - wd.amount}) s.wallets
          let s1 : ExState := {s with wallets := ws}
          ({s1 with withdrawals := setWithdrawalStatus wid "approved" s1.withdrawals}, .ok ())
    else
      let s1 : ExState :=
        match findWallet s wd.user_id wd.asset with
        | none => s
        | some _ =>
          let ws := modWallet wd.user_id wd.asset
            (fun w2 => {w2 with available := w2.available + wd.amount}) s.wallets
          {s with wallets := ws}
      ({s1 with withdrawals := setWithdrawalStatus wid "rejected" s1.withdrawals}, .ok ())

/-- `str.upper()` on ASCII input (`payload.base_asset.upper()`). -/
def strUpper (s : String) : String := ⟨s.data.map Char.toUpper⟩

/-- The three-asset price dictionary every return path of
`main.fetch_prices` produces (keys BTC, ETH, USDT). -/
structure Prices where
  btc : ℚ
  eth : ℚ
  usdt : ℚ
  deriving DecidableEq

/-- Dictionary access `prices[base]` (total on the keys the dictionary has;
every dictionary the oracle returns carries exactly BTC, ETH, USDT). -/
def Prices.get (p : Prices) (a : String) : ℚ :=
  if a == "BTC" then p.btc
  else if a == "ETH" then p.eth
  else if a == "USDT" then p.usdt
  else 0

/-- The order-record construction and insert that terminates a successful
settlement in `main.market_order` (lines 308–317).  Pydantic's `gt=0` bound
on `Order.amount` fires at construction time: for `amount ≤ 0` the handler
raises after the wallet mutations, i.e. `internalError` with the mutated
state and no order record. -/
def mkOrder (uid side base : String) (amount price : ℚ) (s : ExState) :
    ExState × Except ApiError Nat :=
  if amount ≤ 0 then (s, .error .internalError)
  else
    let o : OrderRec := ⟨uid, side, base, amount, price, amount * price⟩
    ({s with orders := (s.nextId, o) :: s.orders, nextId := s.nextId + 1}, .ok s.nextId)

/-- `POST /trade/market` (`main.market_order`, lines 279–317), with the price
dictionary `fetch_prices()` returned passed in as `prices`.  Uppercases the
base asset, rejects anything but BTC/ETH (`UnsupportedMarket`), reads
`price = prices[base]` — with NO zero-price check — and dispatches on the
side.  `buy`: cost = amount·price; fails with `InsufficientFunds` when the
USDT wallet is missing or its `available < cost`; otherwise debits the USDT
wallet (both fields) by `cost`, then looks the base wallet up and subscripts
it unconditionally — a missing base wallet raises (`internalError`) with the
USDT debit already applied — else credits it (both fields) by `amount`.
`sell` is the mirror image.  Any other side fails with `invalidSide`.
A successful swap ends in `mkOrder`. -/
def market_order (uid side base_raw : String) (amount : ℚ) (prices : Prices) (s : ExState) :
    ExState × Except ApiError Nat :=
  let base := strUpper base_raw
  if !(base == "BTC" || base == "ETH") then (s, .error .unsupportedMarket)
  else
    let price := prices.get base
    if side == "buy" then
      let cost := amount * price
      match findWallet s uid "USDT" with
      | none => (s, .error .insufficientFunds)
      | some usdt =>
        if usdt.available < cost then (s, .error .insufficientFunds)
        else
          let ws1 := modWallet uid "USDT"
            (fun w => {w with balance := w.balance - cost, available := w.available - cost})
            s.wallets
          let s1 : ExState := {s with wallets := ws1}
          match findWallet s1 uid base with
          | none => (s1, .error .internalError)
          | some _ =>
            let ws2 := modWallet uid base
              (fun w => {w with balance := w.balance + amount, available := w.available + amount})
              s1.wallets
            mkOrder uid side base amount price {s1 with wallets := ws2}
    else if side == "sell" then
      match findWallet s uid base with
      | none => (s, .error .insufficientFunds)
      | some bw =>
        if bw.available < amount then (s, .error .insufficientFunds)
        else
          let proceeds := amount * price
          let ws1 := modWallet uid base
            (fun w => {w with balance := w.balance - amount, available := w.available - amount})
            s.wallets
          let s1 : ExState := {s with wallets := ws1}
          match findWallet s1 uid "USDT" with
          | none => (s1, .error .internalError)
          | some _ =>
            let ws2 := modWallet uid "USDT"
              (fun w => {w with balance := w.balance + proceeds, available := w.available + proceeds})
              s1.wallets
            mkOrder uid side base amount price {s1 with wallets := ws2}
    else (s, .error .invalidSide)

/-- The raw JSON the external price API returned: CoinGecko's
`{"bitcoin": {"usd": ...}, "ethereum": {"usd": ...}}`, each key possibly
absent (the handler substitutes `0.0` via `.get(..., 0.0)`). -/
structure FetchResult where
  bitcoin_usd : Option ℚ
  ethereum_usd : Option ℚ
  deriving DecidableEq

/-- The price oracle's process-wide state: `PRICE_CACHE`/`PRICE_CACHE_TS`
(always assigned together, lines 79–80, so coupled here as one `Option`) and
the durable `pricesnapshot` collection. -/
structure OracleState where
  cache : Option (Prices × Nat)
  snapshots : List (Nat × Prices)
  deriving DecidableEq

/-- The hard-coded fallback dictionary of `main.fetch_prices` line 91:
`{"BTC": 0.0, "ETH": 0.0, "USDT": 1.0}`. -/
def defaultPrices : Prices := ⟨0, 0, 1⟩

/-- Python `(now - ts).seconds` for `now ≥ ts`: the seconds *component* of the
timedelta, i.e. the total age in seconds reduced modulo one day (86400). -/
def tdSeconds (now ts : Nat) : Nat := (now - ts) % 86400

/-- The refresh body of `main.fetch_prices` (lines 66–91): `outcome` is the
external HTTP call — `some d` a parsed response, `none` any exception
(network error, malformed body).  On success it builds the price dictionary
(missing JSON keys default to 0, USDT hard-coded to 1), overwrites the cache
and its timestamp, and appends a durable snapshot *best-effort*: the snapshot
insert is wrapped in its own `try/except pass`, modelled by the flag
`snapshotOk`.  On failure it returns the cached dictionary when the cache is
non-empty and `defaultPrices` otherwise, touching nothing. -/
def refreshPrices (now : Nat) (outcome : Option FetchResult) (snapshotOk : Bool)
    (st : OracleState) : Prices × OracleState :=
  match outcome with
  | some d =>
    let prices : Prices := ⟨d.bitcoin_usd.getD 0, d.ethereum_usd.getD 0, 1⟩
    (prices,
      { cache := some (prices, now),
        snapshots := if snapshotOk then (now, prices) :: st.snapshots else st.snapshots })
  | none =>
    match st.cache with
    | some (p, _) => (p, st)
    | none => (defaultPrices, st)

/-- `main.fetch_prices` (lines 61–91): returns the cached dictionary when the
cache is non-empty and `(now - PRICE_CACHE_TS).seconds < 20` — note
`.seconds`, the component, not the total age — and otherwise runs the
refresh body. -/
def fetch_prices (now : Nat) (outcome : Option FetchResult) (snapshotOk : Bool)
    (st : OracleState) : Prices × OracleState :=
  match st.cache with
  | some (p, ts) =>
    if tdSeconds now ts < 20 then (p, st)
    else refreshPrices now outcome snapshotOk st
  | none => refreshPrices now outcome snapshotOk st

/-! ## Helper lemmas -/

/-- `find?` after `updateFirst` with the same predicate: the found element is
the image of the previously found one, provided the update preserves the
predicate. -/
theorem find?_updateFirst_self {α : Type} (p : α → Bool) (f : α → α) (l : List α) (x : α)
    (hx : l.find? p = some x) (hfx : p (f x) = true) :
    (updateFirst p f l).find? p = some (f x) := by
  induction l with
  | nil => simp at hx
  | cons a l ih =>
    by_cases h : p a
    · have hax : a = x := by
        rw [List.find?_cons_of_pos _ h] at hx
        exact Option.some.inj hx
      subst hax
      simp [updateFirst, h, List.find?_cons_of_pos, hfx]
    · rw [List.find?_cons_of_neg _ h] at hx
      simp only [updateFirst, if_neg h]
      rw [List.find?_cons_of_neg _ h]
      exact ih hx

/-- A balance/available update does not change a wallet's key. -/
theorem walletKey_update (uid asset : String) (w : Wallet) (b a : ℚ)
    (hk : walletKey uid asset w = true) :
    walletKey uid asset ⟨w.user_id, w.asset, b, a⟩ = true := by
  simpa [walletKey] using hk

/-- `findWallet` after `modWallet` on the same key returns the updated row. -/
theorem findWallet_mod_self (ws : List Wallet) (uid asset : String) (f : Wallet → Wallet)
    (w : Wallet) (hw : ws.find? (walletKey uid asset) = some w)
    (hk : walletKey uid asset (f w) = true) :
    (modWallet uid asset f ws).find? (walletKey uid asset) = some (f w) :=
  find?_updateFirst_self _ _ _ _ hw hk

/-! ## C1 — the `0 ≤ available ≤ balance` invariant -/

/-- A one-wallet state: user `u1` holds an empty USDT wallet. -/
def c1State : ExState := ⟨[⟨"u1", "USDT", 0, 0⟩], [], [], [], 0⟩

/-- C1: the claim fails on the code.  `create_deposit` performs no amount
validation, so depositing `-10` into an empty USDT wallet drives both
`balance` and `available` to `-10`: the resulting state contains a wallet
with `available < 0`, violating `0 ≤ available ≤ balance`. -/
theorem c1_negative_deposit_breaks_invariant :
    ((create_deposit "u1" "USDT" (-10) c1State).1).wallets =
      [⟨"u1", "USDT", -10, -10⟩] ∧
    ∃ w ∈ ((create_deposit "u1" "USDT" (-10) c1State).1).wallets, w.available < 0 := by
  have h : ((create_deposit "u1" "USDT" (-10) c1State).1).wallets =
      [⟨"u1", "USDT", -10, -10⟩] := by
    norm_num [create_deposit, c1State, depositAssetValid, findWallet, modWallet,
      updateFirst, walletKey, List.find?]
  refine ⟨h, ⟨"u1", "USDT", -10, -10⟩, ?_, by norm_num⟩
  rw [h]; exact List.mem_singleton.mpr rfl

/-! ## C7 — non-positive deposit amounts -/

/-- A one-wallet state: user `u7` holds a USDT wallet with balance 100,
available 100. -/
def c7State : ExState := ⟨[⟨"u7", "USDT", 100, 100⟩], [], [], [], 0⟩

/-- C7: the claim fails on the code.  A deposit of `-50` is not rejected with
`InvalidAmount`: the call succeeds, the deposit record is written with status
`"approved"`, and the wallet is debited from (100, 100) to (50, 50). -/
theorem c7_negative_deposit_accepted :
    (create_deposit "u7" "USDT" (-50) c7State).2 = .ok 0 ∧
    (create_deposit "u7" "USDT" (-50) c7State).1.deposits =
      [(0, ⟨"u7", "USDT", -50, PAYPAL_EMAIL, "approved"⟩)] ∧
    findWallet (create_deposit "u7" "USDT" (-50) c7State).1 "u7" "USDT" =
      some ⟨"u7", "USDT", 50, 50⟩ := by
  refine ⟨?_, ?_, ?_⟩ <;>
    norm_num [create_deposit, c7State, depositAssetValid, findWallet, modWallet,
      updateFirst, walletKey, List.find?, PAYPAL_EMAIL]

/-! ## C9 — the freshness window -/

/-- An oracle state whose cache was written at time 0 (prices BTC 7, ETH 8). -/
def c9Cache : OracleState := ⟨some (⟨7, 8, 1⟩, 0), []⟩

/-- C9: the claim fails on the code.  At `now = 86405` the cache is
86405 seconds old — one day plus five seconds, far beyond the 20-second
window — yet `(now - ts).seconds` is the seconds *component* `5 < 20`, so
`fetch_prices` returns the stale cached prices unchanged and never attempts
the refresh, even though a successful fetch result (BTC 9, ETH 10) was
available. -/
theorem c9_day_old_cache_treated_as_fresh :
    fetch_prices 86405 (some ⟨some 9, some 10⟩) true c9Cache = (⟨7, 8, 1⟩, c9Cache) ∧
    20 < 86405 - 0 := by
  constructor
  · norm_num [fetch_prices, c9Cache, tdSeconds]
  · norm_num

/-- `"BTC".upper()` is `"BTC"`. -/
theorem strUpper_BTC : strUpper "BTC" = "BTC" := by decide

/-! ## C2 — zero-price trades -/

/-- A state where user `u2` holds empty USDT and BTC wallets. -/
def c2State : ExState := ⟨[⟨"u2", "USDT", 0, 0⟩, ⟨"u2", "BTC", 0, 0⟩], [], [], [], 0⟩

/-- C2: the claim fails on the code.  With an empty cache and a failed fetch,
the oracle returns the conservative default, whose BTC price is 0 — yet
`market_order` has no zero-price check: a buy of 1 BTC at price 0 *settles*
(`ok`), credits the BTC wallet with 1 unit for a cost of 0, and records an
Order at execution price 0, instead of failing with `MarketUnavailable`. -/
theorem c2_zero_price_trade_settles :
    (fetch_prices 0 none true ⟨none, []⟩).1.get "BTC" = 0 ∧
    (market_order "u2" "buy" "BTC" 1 (fetch_prices 0 none true ⟨none, []⟩).1 c2State).2 =
      .ok 0 ∧
    findWallet
      (market_order "u2" "buy" "BTC" 1 (fetch_prices 0 none true ⟨none, []⟩).1 c2State).1
      "u2" "BTC" = some ⟨"u2", "BTC", 1, 1⟩ ∧
    (market_order "u2" "buy" "BTC" 1 (fetch_prices 0 none true ⟨none, []⟩).1 c2State).1.orders =
      [(0, ⟨"u2", "buy", "BTC", 1, 0, 0⟩)] := by
  refine ⟨?_, ?_, ?_, ?_⟩ <;>
    norm_num [market_order, fetch_prices, refreshPrices, defaultPrices, Prices.get,
      strUpper_BTC, mkOrder, c2State, findWallet, modWallet, updateFirst, walletKey,
      List.find?] <;> rfl

/-! ## C3 — atomicity of the swap -/

/-- A state where user `u3` holds a USDT wallet with 100000 available but —
the wallet-creation loop of `register` swallows insertion failures — no BTC
wallet row. -/
def c3State : ExState := ⟨[⟨"u3", "USDT", 100000, 100000⟩], [], [], [], 0⟩

/-- C3: the claim fails on the code.  Buying 1 BTC at price 50000 first
debits the USDT wallet by 50000 and only then looks the BTC wallet up; the
missing row makes the handler raise (`base_w["_id"]` on `None`, an HTTP 500),
so the call returns a failure with the debit of one leg already applied and
no matching credit and no Order — an observable partial swap. -/
theorem c3_partial_swap_observable :
    (market_order "u3" "buy" "BTC" 1 ⟨50000, 4000, 1⟩ c3State).2 =
      .error .internalError ∧
    findWallet (market_order "u3" "buy" "BTC" 1 ⟨50000, 4000, 1⟩ c3State).1 "u3" "USDT" =
      some ⟨"u3", "USDT", 50000, 50000⟩ ∧
    (market_order "u3" "buy" "BTC" 1 ⟨50000, 4000, 1⟩ c3State).1.orders = [] := by
  refine ⟨?_, ?_, ?_⟩ <;>
    norm_num [market_order, Prices.get, strUpper_BTC, mkOrder, c3State, findWallet,
      modWallet, updateFirst, walletKey, List.find?] <;> rfl

/-! ## C4 — deciding a withdrawal twice -/

/-- The state after a withdrawal of 30 USDT was created and approved once:
the wallet went (100, 100) → reserve → (100, 70) → approve → (70, 70), and
the withdrawal record is terminal with status `"approved"`. -/
def c4State : ExState :=
  ⟨[⟨"u4", "USDT", 70, 70⟩], [], [(0, ⟨"u4", "USDT", 30, "d", "approved"⟩)], [], 1⟩

/-- C4: the claim fails on the code.  `approve_withdrawal` never checks the
record's current status, so deciding the already-approved withdrawal a second
time does not fail with `AlreadyDecided`: it returns `ok` and debits the
balance by 30 again, leaving the wallet at (40, 70) — a double settlement
that also puts `available` above `balance`. -/
theorem c4_double_decide_debits_again :
    (approve_withdrawal 0 true c4State).2 = .ok () ∧
    findWallet (approve_withdrawal 0 true c4State).1 "u4" "USDT" =
      some ⟨"u4", "USDT", 40, 70⟩ ∧
    (40 : ℚ) < 70 := by
  refine ⟨?_, ?_, by norm_num⟩ <;>
    norm_num [approve_withdrawal, c4State, findWithdrawal, setWithdrawalStatus,
      findWallet, modWallet, updateFirst, walletKey, List.find?]

/-! ## C5 — withdrawal creation -/

/-- C5: `withdrawal.create` behaves as claimed.  Against an existing wallet
row, when `available ≥ amount` the call succeeds with the fresh id, the
wallet's `available` drops by exactly `amount` while `balance` is untouched,
and a withdrawal record with status `"created"` is inserted (deposits are
untouched); when `available < amount` it fails with `InsufficientFunds` and
the state is completely unchanged, so no record is created. -/
theorem c5_withdrawal_create_spec (s : ExState) (uid asset dest : String) (amount : ℚ)
    (w : Wallet) (hw : findWallet s uid asset = some w)
    (hA : depositAssetValid asset = true) :
    (amount ≤ w.available →
      (create_withdrawal uid asset amount dest s).2 = .ok s.nextId ∧
      findWallet (create_withdrawal uid asset amount dest s).1 uid asset =
        some ⟨w.user_id, w.asset, w.balance, w.available - amount⟩ ∧
      (create_withdrawal uid asset amount dest s).1.withdrawals =
        (s.nextId, ⟨uid, asset, amount, dest, "created"⟩) :: s.withdrawals ∧
      (create_withdrawal uid asset amount dest s).1.deposits = s.deposits) ∧
    (w.available < amount →
      create_withdrawal uid asset amount dest s = (s, .error .insufficientFunds)) := by
  have hkey : walletKey uid asset w = true := List.find?_some hw
  have hw' : List.find? (walletKey uid asset) s.wallets = some w := hw
  constructor
  · intro hle
    have hnlt : ¬ w.available < amount := not_lt.mpr hle
    have hfw : (modWallet uid asset (fun w2 => {w2 with available := w2.available - amount})
        s.wallets).find? (walletKey uid asset) =
        some {w with available := w.available - amount} := by
      refine findWallet_mod_self _ _ _ _ _ hw ?_
      simpa [walletKey] using hkey
    refine ⟨?_, ?_, ?_, ?_⟩ <;>
      simp [create_withdrawal, findWallet, hw', hnlt, hA, hfw]
  · intro hlt
    simp [create_withdrawal, findWallet, hw', hlt]

/-- A one-wallet state for the C5 witness: USDT balance 100, available 100
(the spec's Scenario 1). -/
def c5State : ExState := ⟨[⟨"u5", "USDT", 100, 100⟩], [], [], [], 0⟩

/-- C5 witness: reserving 30 out of (100, 100) succeeds and yields
available 70, balance 100, with the record in status `"created"`. -/
theorem c5_withdrawal_create_spec_witness :
    (create_withdrawal "u5" "USDT" 30 "dest" c5State).2 = .ok 0 ∧
    findWallet (create_withdrawal "u5" "USDT" 30 "dest" c5State).1 "u5" "USDT" =
      some ⟨"u5", "USDT", 100, 70⟩ ∧
    (create_withdrawal "u5" "USDT" 30 "dest" c5State).1.withdrawals =
      [(0, ⟨"u5", "USDT", 30, "dest", "created"⟩)] := by
  have h := c5_withdrawal_create_spec c5State "u5" "USDT" "dest" 30
    ⟨"u5", "USDT", 100, 100⟩ rfl rfl
  have h2 := h.1 (by norm_num)
  refine ⟨h2.1, ?_, h2.2.2.1⟩
  rw [h2.2.1]
  norm_num

/-! ## C6 — deposits are credited exactly once -/

/-- C6: deposit approval is idempotent at the record level, as the code
realises it: approval happens only as part of `create_deposit`, which
(a) prepends exactly one fresh record, already in status `"approved"`, and
leaves every pre-existing deposit record untouched, (b) credits the wallet
exactly once — `balance` and `available` each grow by exactly `amount` — and
(c) no other ledger endpoint ever modifies the deposit collection.  Hence a
deposit can never be re-approved and the wallet is credited exactly once per
deposit. -/
theorem c6_deposit_credited_once (s : ExState) (uid asset dest side base : String)
    (amount : ℚ) (wid : Nat) (b : Bool) (prices : Prices) :
    (depositAssetValid asset = true →
      (create_deposit uid asset amount s).1.deposits =
        (s.nextId, ⟨uid, asset, amount, PAYPAL_EMAIL, "approved"⟩) :: s.deposits) ∧
    (∀ w, findWallet s uid asset = some w → depositAssetValid asset = true →
      findWallet (create_deposit uid asset amount s).1 uid asset =
        some ⟨w.user_id, w.asset, w.balance + amount, w.available + amount⟩) ∧
    (create_withdrawal uid asset amount dest s).1.deposits = s.deposits ∧
    (approve_withdrawal wid b s).1.deposits = s.deposits ∧
    (market_order uid side base amount prices s).1.deposits = s.deposits := by
  refine ⟨?_, ?_, ?_, ?_, ?_⟩
  · intro hA
    simp only [create_deposit, hA, Bool.not_true, Bool.false_eq_true, if_false]
    split <;> simp [updateFirst]
  · intro w hw hA
    have hkey : walletKey uid asset w = true := List.find?_some hw
    have hw' : List.find? (walletKey uid asset) s.wallets = some w := hw
    have hfw : (modWallet uid asset
        (fun w2 => {w2 with balance := w2.balance + amount, available := w2.available + amount})
        s.wallets).find? (walletKey uid asset) =
        some {w with balance := w.balance + amount, available := w.available + amount} := by
      refine findWallet_mod_self _ _ _ _ _ hw ?_
      simpa [walletKey] using hkey
    simp [create_deposit, hA, findWallet, hw', hfw]
  · unfold create_withdrawal
    (repeat' split) <;> rfl
  · unfold approve_withdrawal
    (repeat' split) <;> rfl
  · simp only [market_order, mkOrder]
    (repeat' split) <;> rfl

/-- A one-wallet state for the C6 witness: USDT balance 5, available 5. -/
def c6State : ExState := ⟨[⟨"u6", "USDT", 5, 5⟩], [], [], [], 0⟩

/-- C6 witness: a deposit of 7 USDT into (5, 5) yields exactly one approved
deposit record and a wallet credited exactly once, to (12, 12). -/
theorem c6_deposit_credited_once_witness :
    (create_deposit "u6" "USDT" 7 c6State).1.deposits =
      [(0, ⟨"u6", "USDT", 7, PAYPAL_EMAIL, "approved"⟩)] ∧
    findWallet (create_deposit "u6" "USDT" 7 c6State).1 "u6" "USDT" =
      some ⟨"u6", "USDT", 12, 12⟩ := by
  have h := c6_deposit_credited_once c6State "u6" "USDT" "d" "b" "BTC" 7 0 true ⟨1, 1, 1⟩
  refine ⟨h.1 rfl, ?_⟩
  have h2 := h.2.1 ⟨"u6", "USDT", 5, 5⟩ rfl rfl
  rw [h2]
  norm_num

/-! ## C8 — price.quote never propagates a failure -/

/-- C8: counterexample to the claim as stated.  With no prior cache and a
failed refresh, the quote for asset `"USDT"` is the hard-coded `1`, not the
claimed conservative default of zero (the zero default applies only to the
tradeable base assets BTC and ETH). -/
theorem c8_default_usdt_not_zero :
    (fetch_prices 0 none true ⟨none, []⟩).1.get "USDT" = 1 ∧ (1 : ℚ) ≠ 0 := by
  constructor
  · rfl
  · norm_num

/-- C8 (amended): `price.quote` never propagates a failure.  For every cache
state and clock it returns a value; on refresh failure it returns the cached
prices whenever a cache exists (fresh or stale) and otherwise the fallback
dictionary — 0 for BTC and ETH, 1 for USDT; and the success or failure of the
best-effort snapshot write never changes the returned prices nor the
resulting cache. -/
theorem c8_quote_never_fails (now : Nat) (st : OracleState) (outcome : Option FetchResult)
    (sOk : Bool) :
    (∀ p ts, st.cache = some (p, ts) → (fetch_prices now none sOk st).1 = p) ∧
    (st.cache = none → fetch_prices now none sOk st = (defaultPrices, st)) ∧
    (fetch_prices now outcome true st).1 = (fetch_prices now outcome false st).1 ∧
    (fetch_prices now outcome true st).2.cache = (fetch_prices now outcome false st).2.cache := by
  refine ⟨?_, ?_, ?_, ?_⟩
  · intro p ts hc
    simp only [fetch_prices, hc, refreshPrices]
    split <;> rfl
  · intro hc
    simp [fetch_prices, hc, refreshPrices]
  · cases hc : st.cache with
    | none => cases outcome <;> simp [fetch_prices, hc, refreshPrices]
    | some pr =>
      cases outcome <;> simp only [fetch_prices, hc, refreshPrices] <;> (repeat' split) <;> rfl
  · cases hc : st.cache with
    | none => cases outcome <;> simp [fetch_prices, hc, refreshPrices]
    | some pr =>
      cases outcome <;> simp only [fetch_prices, hc, refreshPrices] <;> (repeat' split) <;> rfl

/-- C8 witness: with a cache holding (BTC 5, ETH 6, USDT 1) a failed refresh
returns the cached prices; with no cache it returns the fallback dictionary. -/
theorem c8_quote_never_fails_witness :
    (fetch_prices 3 none true ⟨some (⟨5, 6, 1⟩, 0), []⟩).1 = ⟨5, 6, 1⟩ ∧
    fetch_prices 3 none true ⟨none, []⟩ = (defaultPrices, ⟨none, []⟩) :=
  ⟨(c8_quote_never_fails 3 ⟨some (⟨5, 6, 1⟩, 0), []⟩ none true).1 ⟨5, 6, 1⟩ 0 rfl,
   (c8_quote_never_fails 3 ⟨none, []⟩ none true).2.1 rfl⟩

/-! ## C10 — deposits of an asset with no wallet row -/

/-- C10: a deposit of an asset for which the account has no wallet row — in
particular `"USD"`, whose wallet `register` never creates because the
`Wallet` schema literal rejects it while the `Deposit` schema accepts it —
still succeeds: the returned status is `"approved"`, the deposit record is
stored approved, and no wallet anywhere is credited.  The final conjunct
shows `register`'s wallet loop adds no USD row: every wallet after
registration either pre-existed or is not a USD wallet. -/
theorem c10_deposit_without_wallet (s : ExState) (uid asset : String) (amount : ℚ)
    (hA : depositAssetValid asset = true)
    (hw : findWallet s uid asset = none) :
    (create_deposit uid asset amount s).2 = .ok s.nextId ∧
    (create_deposit uid asset amount s).1.wallets = s.wallets ∧
    (create_deposit uid asset amount s).1.deposits =
      (s.nextId, ⟨uid, asset, amount, PAYPAL_EMAIL, "approved"⟩) :: s.deposits ∧
    (∀ uid2 : String, ∀ s2 : ExState, ∀ w ∈ (registerWallets uid2 s2).wallets,
      w ∈ s2.wallets ∨ w.asset ≠ "USD") := by
  have hw' : List.find? (walletKey uid asset) s.wallets = none := hw
  refine ⟨?_, ?_, ?_, ?_⟩
  · simp [create_deposit, hA, findWallet, hw']
  · simp [create_deposit, hA, findWallet, hw']
  · simp [create_deposit, hA, findWallet, hw', updateFirst]
  · intro uid2 s2 w hwmem
    have hlist : (registerWallets uid2 s2).wallets =
        s2.wallets ++ [⟨uid2, "BTC", 0, 0⟩, ⟨uid2, "ETH", 0, 0⟩, ⟨uid2, "USDT", 0, 0⟩] := by
      simp [registerWallets, walletAssetValid]
    rw [hlist] at hwmem
    rcases List.mem_append.mp hwmem with h | h
    · exact Or.inl h
    · right
      simp only [List.mem_cons, List.not_mem_nil, or_false] at h
      rcases h with h | h | h <;> subst h <;> simp

/-- The empty ledger state. -/
def emptyState : ExState := ⟨[], [], [], [], 0⟩

/-- C10 witness: depositing 25 USD into the empty state (no USD wallet row
exists) succeeds with an approved record and leaves the wallet collection
empty. -/
theorem c10_deposit_without_wallet_witness :
    (create_deposit "u" "USD" 25 emptyState).2 = .ok 0 ∧
    (create_deposit "u" "USD" 25 emptyState).1.wallets = [] ∧
    (create_deposit "u" "USD" 25 emptyState).1.deposits =
      [(0, ⟨"u", "USD", 25, PAYPAL_EMAIL, "approved"⟩)] := by
  have h := c10_deposit_without_wallet emptyState "u" "USD" 25 rfl rfl
  exact ⟨h.1, h.2.1, h.2.2.1⟩

end Laxo
